import Mathlib

/-!
Verification development for the MCHX Excel data-cleaning pipeline
(src/app.py).  The program loads a workbook, extracts a fixed set of
cells from every worksheet (with one string-normalisation rule for the
refrigerant-quantity field), consolidates the records through a pandas
DataFrame, and writes them into a fresh single-sheet workbook.

The embedding below models:
  - worksheet cell values as the universe of values the pipeline
    manipulates (integers, floats, NaN, text, and the empty cell that
    openpyxl reports as None);
  - a worksheet as its coordinate-to-value mapping, matching the
    coordinate-addressed reads ws.cell(row=r, column=c).value;
  - the Python expression int(cell_value.removesuffix("GM")) used at
    src/app.py line 80, including the CPython acceptance rules of the
    int constructor on strings (surrounding ASCII whitespace, an
    optional single sign, underscores between digits);
  - the per-sheet extraction loop and the record list;
  - the pandas DataFrame construction from a list of records, with the
    column dtype inference pandas performs (a column mixing numbers and
    None is coerced to float64: integers become floats and None becomes
    NaN; a column containing any string, or containing only None, keeps
    its values unchanged as object dtype; pd.DataFrame of an empty list
    has no columns at all);
  - the emission loop writing the header row and the data rows of the
    DataFrame into the output worksheet;
  - the top-level try/except boundary of the app and the progress
    updates of the extraction loop.
-/

namespace MCHX

/-- Universe of cell values flowing through the pipeline: integers,
floats (rationals stand in for the finite doubles occurring here), the
float NaN produced by pandas for missing entries of numeric columns,
text, and the empty cell (Python None). -/
inductive Value where
  | int   : Int → Value
  | float : Rat → Value
  | nan   : Value
  | str   : String → Value
  | null  : Value
deriving DecidableEq

/-- A worksheet is its mapping from (row, column) coordinates to cell
values; absent cells read as the empty value, exactly as
ws.cell(row=r, column=c).value yields None for an untouched cell. -/
abbrev Worksheet : Type := Nat → Nat → Value

/-- One extracted record: field name paired with extracted value, in
insertion order.  The Python dict row_data is built by inserting the
field-map keys in order, and all keys are distinct, so the dict order
is the field-map order. -/
abbrev Record : Type := List (String × Value)

/-- The static cell map of src/app.py lines 30-65: field label to
1-based (row, column) coordinates. -/
def cellMap : List (String × Nat × Nat) :=
  [ ("Refrigerant Qty (g)", 16, 2),
    ("EEV", 7, 2),
    ("Test Condition", 2, 2),
    ("Comp RPM/Hz", 4, 2),
    ("IDU RPM", 5, 2),
    ("ODU RPM", 6, 2),
    ("ID DBT", 9, 2),
    ("ID WBT", 10, 2),
    ("OD DBT", 11, 2),
    ("OD WBT", 12, 2),
    ("Suction Pressure (Bar)", 19, 2),
    ("Cond In Pressure (Bar)", 20, 2),
    ("Cond Out Pressure (Bar)", 21, 2),
    ("Suction Sat T (°C)", 19, 5),
    ("Cond in Sat T (°C)", 20, 5),
    ("Cond out Sat T (°C)", 21, 5),
    ("Temp Compressor in (°C)", 23, 2),
    ("Temp Condenser in (°C)", 24, 2),
    ("Temp Condenser out (°C)", 25, 2),
    ("Temp Evaporator out (°C)", 26, 2),
    ("SH (Evaporator) (°C)", 23, 5),
    ("SH (Suction) (°C)", 24, 5),
    ("SC (°C)", 25, 5),
    ("Power Consumption (W)", 29, 2),
    ("Enthalpy Evap In (kJ/kg)", 31, 2),
    ("Enthalpy Evap Out (kJ/kg)", 32, 2),
    ("∆H Evap (kJ/kg)", 33, 2),
    ("Enthalpy Cond In (kJ/kg)", 34, 2),
    ("Cond Enthalpy Out (kJ/kg)", 35, 2),
    ("∆H Cond (kJ/kg)", 36, 2),
    ("Mass Flow (kg/hr)", 38, 2),
    ("Cooling Cap (W)", 40, 2),
    ("Cooling Cap (Btu/hr)", 40, 4),
    ("COP (W/W)", 45, 2) ]

/-- ASCII whitespace stripped by the CPython int constructor before
parsing a string (the constructor also strips some Unicode spaces,
which do not occur in this development). -/
def pyIsSpace (c : Char) : Bool :=
  c = ' ' || c = '\t' || c = '\n' || c = '\r' || c = '\x0b' || c = '\x0c'

/-- Strip leading and trailing whitespace, as int(str) does. -/
def pyStrip (s : String) : List Char :=
  ((s.data.dropWhile pyIsSpace).reverse.dropWhile pyIsSpace).reverse

/-- Numeric value of a decimal digit character. -/
def digitVal (c : Char) : Nat := c.toNat - '0'.toNat

/-- Accumulate a decimal digit string in which single underscores may
appear between two digits (the CPython grammar digit (underscore?
digit)*).  The caller guarantees the list starts with a digit. -/
def pyDigitsCore : List Char → Nat → Option Nat
  | [], acc => some acc
  | c :: cs, acc =>
    if c.isDigit then pyDigitsCore cs (10 * acc + digitVal c)
    else if c = '_' then
      match cs with
      | d :: _ => if d.isDigit then pyDigitsCore cs acc else Option.none
      | [] => Option.none
    else Option.none

/-- Parse a nonempty digit string with optional underscore separators;
the first character must be a digit (no leading underscore). -/
def pyParseDigits (cs : List Char) : Option Nat :=
  match cs with
  | c :: _ => if c.isDigit then pyDigitsCore cs 0 else Option.none
  | [] => Option.none

/-- The CPython int constructor applied to a string in base 10:
strip surrounding whitespace, allow one optional sign, then a decimal
digit string with underscore separators.  Returns Option.none where
CPython raises ValueError (the MalformedQuantity failure). -/
def pyInt (s : String) : Option Int :=
  match pyStrip s with
  | '+' :: rest => (pyParseDigits rest).map (fun n => (n : Int))
  | '-' :: rest => (pyParseDigits rest).map (fun n => -(n : Int))
  | rest => (pyParseDigits rest).map (fun n => (n : Int))

/-- Python str.removesuffix: drop the suffix when the string ends with
it, otherwise return the string unchanged; exact and case-sensitive.
Implemented over the character lists so that it evaluates by kernel
reduction. -/
def removesuffix (s suf : String) : String :=
  if suf.data.length ≤ s.data.length ∧
      s.data.drop (s.data.length - suf.data.length) = suf.data
  then String.mk (s.data.take (s.data.length - suf.data.length))
  else s

/-- The per-field extraction rule of src/app.py lines 77-84: the
refrigerant-quantity field converts a string cell through
int(cell_value.removesuffix("GM")) and passes any non-string cell
through unchanged; every other field passes its cell through
unchanged.  Option.none models the ValueError escaping the loop. -/
def extractField (header : String) (v : Value) : Option Value :=
  if header = "Refrigerant Qty (g)" then
    match v with
    | Value.str s => (pyInt (removesuffix s "GM")).map Value.int
    | _ => some v
  else some v

/-- Walk the cell-map entries in order, reading each mapped coordinate
of the worksheet and applying the extraction rule; the first failure
aborts (the exception propagates out of the loop). -/
def extractFields (ws : Worksheet) : List (String × Nat × Nat) → Option Record
  | [] => some []
  | e :: rest =>
    (extractField e.1 (ws e.2.1 e.2.2)).bind
      (fun v => (extractFields ws rest).map (fun r => (e.1, v) :: r))

/-- Extract one record from a worksheet (the body of the per-sheet
loop at src/app.py lines 73-84). -/
def extract (ws : Worksheet) : Option Record :=
  extractFields ws cellMap

/-- The extraction loop over all worksheets, collecting one record per
sheet in sheet order (records.append at src/app.py line 86); a failure
on any sheet aborts the whole run. -/
def consolidate : List Worksheet → Option (List Record)
  | [] => some []
  | ws :: rest =>
    (extract ws).bind (fun r => (consolidate rest).map (fun t => r :: t))

/-- Column values holding a Python string. -/
def Value.isStr : Value → Bool
  | Value.str _ => true
  | _ => false

/-- Column values holding Python None (the empty cell). -/
def Value.isNull : Value → Bool
  | Value.null => true
  | _ => false

/-- Column values already of float kind (a float or the float NaN). -/
def Value.isFloatLike : Value → Bool
  | Value.float _ => true
  | Value.nan => true
  | _ => false

/-- The conversion pandas applies to every entry of a column it infers
as float64: integers widen to floats and None becomes NaN. -/
def toFloat64 : Value → Value
  | Value.int n => Value.float (n : Rat)
  | Value.null => Value.nan
  | v => v

/-- The dtype inference pandas performs on one column of
pd.DataFrame(records): a column containing any string keeps its values
unchanged (object dtype), as does a column holding only None; a column
of numbers that contains a None, a float, or a NaN is coerced to
float64 entrywise; a column purely of integers stays int64. -/
def coerceColumn (vs : List Value) : List Value :=
  if vs.any Value.isStr then vs
  else if vs.all Value.isNull then vs
  else if vs.any (fun v => Value.isNull v || Value.isFloatLike v) then
    vs.map toFloat64
  else vs

/-- The DataFrame column labels: pandas takes the keys of the records
in order of first appearance, so the first record fixes the schema and
pd.DataFrame of an empty record list has no columns at all. -/
def columns (table : List Record) : List String :=
  match table with
  | [] => []
  | r :: _ => r.map Prod.fst

/-- The raw values of column j, one per record, in record order.  All
records produced by the extractor carry the field-map keys in the same
order, so the j-th position of every record belongs to the j-th
column. -/
def colVals (table : List Record) (j : Nat) : List Value :=
  table.map (fun r => ((r.get? j).map Prod.snd).getD Value.null)

/-- The DataFrame columns after the dtype coercion of pandas. -/
def dfCols (table : List Record) : List (List Value) :=
  (List.range (columns table).length).map
    (fun j => coerceColumn (colVals table j))

/-- The DataFrame rows as handed out by df.itertuples(index=False):
one row per record, each row listing the coerced column values in
column order. -/
def dfRows (table : List Record) : List (List Value) :=
  (List.range table.length).map
    (fun i => (dfCols table).map (fun col => col.getD i Value.null))

/-- The output worksheet built at src/app.py lines 99-106, as the list
of its written rows: row 1 receives the DataFrame column labels and
every following row one DataFrame data row.  For an empty DataFrame
there are no columns, so nothing at all is written and the header row
is empty. -/
def emit (table : List Record) : List (List Value) :=
  ((columns table).map Value.str) :: dfRows table

/-- The data cell written at output row i+2, column j+1. -/
def emitCell (table : List Record) (i j : Nat) : Value :=
  ((dfRows table).getD i []).getD j Value.null

/-- The extracted value feeding output data cell (i, j): the j-th
field of record i. -/
def recVal (table : List Record) (i j : Nat) : Value :=
  (colVals table j).getD i Value.null

/-- The consolidated table of a run, defaulting to the empty table. -/
def theTable (wss : List Worksheet) : List Record :=
  (consolidate wss).getD []

/-- What the app shows: either the preview (df.head, the first five
DataFrame rows) together with the downloadable output sheet, or one
error message with the generic remediation hint. -/
inductive AppDisplay where
  | success : List (List Value) → List (List Value) → AppDisplay
  | failure : String → String → AppDisplay
deriving DecidableEq

/-- The single user-facing error message of the except branch at
src/app.py line 129 (modelled without the interpolated exception
text). -/
def errMessage : String := "Error processing file"

/-- The generic remediation hint of src/app.py line 130. -/
def remediationHint : String :=
  "Please ensure your file matches the expected format and try again."

/-- Mapping the pipeline outcome to the display: the try/except
boundary of src/app.py lines 20-130.  A successful run shows the
preview and the download; any failure shows exactly one message plus
the hint and delivers nothing. -/
def display (res : Option (List Record)) : AppDisplay :=
  match res with
  | some table => AppDisplay.success ((dfRows table).take 5) (emit table)
  | Option.none => AppDisplay.failure errMessage remediationHint

/-- The whole app on one uploaded workbook. -/
def runApp (wss : List Worksheet) : AppDisplay :=
  display (consolidate wss)

/-- Python division of two machine naturals, guarded against
ZeroDivisionError: Option.none models the exception and the exact
rational models the quotient. -/
def pyDiv (a b : Nat) : Option Rat :=
  if b = 0 then Option.none else some (mkRat a b)

/-- The progress fractions computed by the extraction loop at
src/app.py line 87: (i + 1) / sheet_count for each iteration index i.
A run that aborts mid-loop performs a prefix of these divisions, so
this list covers every division the loop can attempt. -/
def progressUpdates (wss : List Worksheet) : List (Option Rat) :=
  (List.range wss.length).map (fun i => pyDiv (i + 1) wss.length)

/-- Two worksheets agree on every coordinate the field map reads. -/
abbrev AgreeOnMapped (ws1 ws2 : Worksheet) : Prop :=
  ∀ e ∈ cellMap, ws1 e.2.1 e.2.2 = ws2 e.2.1 e.2.2

/-- The per-value type discipline the pipeline actually guarantees
between extraction and emission: text survives unchanged; an integer
survives as that integer or widens to the equal float; a float and a
NaN survive unchanged; an empty value survives empty or becomes NaN
when pandas coerces its column to float64. -/
def typeFate (v w : Value) : Prop :=
  match v with
  | Value.str s => w = Value.str s
  | Value.int n => w = Value.int n ∨ w = Value.float (n : Rat)
  | Value.float q => w = Value.float q
  | Value.nan => w = Value.nan
  | Value.null => w = Value.null ∨ w = Value.nan

/-- The blank worksheet: every cell reads as empty. -/
def wsNull : Worksheet := fun _ _ => Value.null

/-- Worksheet whose EEV cell (row 7, column 2) holds the integer 5 and
whose other cells are blank. -/
def wsEEVnum : Worksheet :=
  fun r c => if r = 7 ∧ c = 2 then Value.int 5 else Value.null

/-- Worksheet whose IDU RPM cell (row 5, column 2) holds the integer
800 and whose other cells are blank. -/
def wsIDUnum : Worksheet :=
  fun r c => if r = 5 ∧ c = 2 then Value.int 800 else Value.null

/-- Worksheet whose refrigerant-quantity cell (row 16, column 2) holds
the malformed text 1200KG and whose other cells are blank. -/
def wsBadQty : Worksheet :=
  fun r c => if r = 16 ∧ c = 2 then Value.str "1200KG" else Value.null

/-- Worksheet carrying text in the unmapped cell (1, 1) and blank
everywhere else; it agrees with the blank worksheet on every mapped
coordinate. -/
def wsJunk : Worksheet :=
  fun r c => if r = 1 ∧ c = 1 then Value.str "junk" else Value.null

/-! ### Helper lemmas about the extractor and the consolidation -/

lemma extractFields_keys {ws : Worksheet} :
    ∀ {entries : List (String × Nat × Nat)} {r : Record},
      extractFields ws entries = some r →
      r.map Prod.fst = entries.map Prod.fst := by
  intro entries
  induction entries with
  | nil =>
    intro r h
    simp only [extractFields, Option.some.injEq] at h
    simp [← h]
  | cons e rest ih =>
    intro r h
    simp only [extractFields] at h
    rcases Option.bind_eq_some.mp h with ⟨v, _, h2⟩
    rcases Option.map_eq_some'.mp h2 with ⟨r', hr', rfl⟩
    simp [ih hr']

lemma extract_keys {ws : Worksheet} {r : Record} (h : extract ws = some r) :
    r.map Prod.fst = cellMap.map Prod.fst :=
  extractFields_keys h

lemma consolidate_length :
    ∀ {wss : List Worksheet} {t : List Record},
      consolidate wss = some t → t.length = wss.length := by
  intro wss
  induction wss with
  | nil =>
    intro t h
    simp only [consolidate, Option.some.injEq] at h
    simp [← h]
  | cons w rest ih =>
    intro t h
    simp only [consolidate] at h
    rcases Option.bind_eq_some.mp h with ⟨r, _, h2⟩
    rcases Option.map_eq_some'.mp h2 with ⟨t', ht', rfl⟩
    simp [ih ht']

lemma consolidate_keys :
    ∀ {wss : List Worksheet} {t : List Record},
      consolidate wss = some t →
      ∀ r ∈ t, r.map Prod.fst = cellMap.map Prod.fst := by
  intro wss
  induction wss with
  | nil =>
    intro t h
    simp only [consolidate, Option.some.injEq] at h
    intro r hr
    rw [← h] at hr
    cases hr
  | cons w rest ih =>
    intro t h
    simp only [consolidate] at h
    rcases Option.bind_eq_some.mp h with ⟨r0, hr0, h2⟩
    rcases Option.map_eq_some'.mp h2 with ⟨t', ht', rfl⟩
    intro r hr
    rcases List.mem_cons.mp hr with rfl | hmem
    · exact extract_keys hr0
    · exact ih ht' r hmem

lemma extractFields_congr {ws1 ws2 : Worksheet} :
    ∀ {entries : List (String × Nat × Nat)},
      (∀ e ∈ entries, ws1 e.2.1 e.2.2 = ws2 e.2.1 e.2.2) →
      extractFields ws1 entries = extractFields ws2 entries := by
  intro entries
  induction entries with
  | nil => intro _; rfl
  | cons e rest ih =>
    intro h
    have he : ws1 e.2.1 e.2.2 = ws2 e.2.1 e.2.2 :=
      h e (List.mem_cons_self e rest)
    have hr : ∀ x ∈ rest, ws1 x.2.1 x.2.2 = ws2 x.2.1 x.2.2 :=
      fun x hx => h x (List.mem_cons_of_mem e hx)
    simp only [extractFields, he, ih hr]

lemma extract_congr {ws1 ws2 : Worksheet} (h : AgreeOnMapped ws1 ws2) :
    extract ws1 = extract ws2 :=
  extractFields_congr h

lemma consolidate_congr {wss1 wss2 : List Worksheet}
    (h : List.Forall₂ AgreeOnMapped wss1 wss2) :
    consolidate wss1 = consolidate wss2 := by
  induction h with
  | nil => rfl
  | cons hab _ ih => simp only [consolidate, extract_congr hab, ih]

lemma consolidate_of_mem_none {wss : List Worksheet} {ws : Worksheet}
    (hmem : ws ∈ wss) (hfail : extract ws = Option.none) :
    consolidate wss = Option.none := by
  induction wss with
  | nil => cases hmem
  | cons w rest ih =>
    rcases List.mem_cons.mp hmem with rfl | hmem'
    · simp [consolidate, hfail]
    · cases hx : extract w with
      | none => simp [consolidate, hx]
      | some r => simp [consolidate, hx, ih hmem']

/-! ### Helper lemmas about the DataFrame model and the emitter -/

lemma colVals_length (t : List Record) (j : Nat) :
    (colVals t j).length = t.length := by
  simp [colVals]

lemma coerceColumn_length (vs : List Value) :
    (coerceColumn vs).length = vs.length := by
  simp only [coerceColumn]
  split_ifs <;> simp

lemma dfCols_length (t : List Record) :
    (dfCols t).length = (columns t).length := by
  simp [dfCols]

lemma dfRows_length (t : List Record) :
    (dfRows t).length = t.length := by
  simp [dfRows]

lemma dfRows_mem_length {t : List Record} {row : List Value}
    (h : row ∈ dfRows t) : row.length = (columns t).length := by
  simp only [dfRows, List.mem_map, List.mem_range] at h
  obtain ⟨i, _, rfl⟩ := h
  simp [dfCols_length]

lemma dfCols_getElem? {t : List Record} {j : Nat}
    (hj : j < (columns t).length) :
    (dfCols t)[j]? = some (coerceColumn (colVals t j)) := by
  simp [dfCols, List.getElem?_map, List.getElem?_range hj]

lemma dfRows_getElem? {t : List Record} {i : Nat} (hi : i < t.length) :
    (dfRows t)[i]? =
      some ((dfCols t).map (fun col => col.getD i Value.null)) := by
  simp [dfRows, List.getElem?_map, List.getElem?_range hi]

lemma emitCell_eq {t : List Record} {i j : Nat}
    (hi : i < t.length) (hj : j < (columns t).length) :
    emitCell t i j = (coerceColumn (colVals t j)).getD i Value.null := by
  have hrow : (dfRows t).getD i [] =
      (dfCols t).map (fun col => col.getD i Value.null) := by
    rw [List.getD_eq_getElem?_getD, dfRows_getElem? hi, Option.getD_some]
  unfold emitCell
  rw [hrow, List.getD_eq_getElem?_getD, List.getElem?_map, dfCols_getElem? hj,
    Option.map_some', Option.getD_some]

lemma typeFate_refl (v : Value) : typeFate v v := by
  cases v <;> simp [typeFate]

lemma toFloat64_fate {v : Value} (hstr : v.isStr = false) :
    typeFate v (toFloat64 v) := by
  cases v <;> simp_all [toFloat64, typeFate, Value.isStr]

lemma coerce_fate {vs : List Value} {i : Nat} (hi : i < vs.length) :
    typeFate (vs.getD i Value.null) ((coerceColumn vs).getD i Value.null) := by
  by_cases h1 : vs.any Value.isStr = true
  · simp [coerceColumn, h1, typeFate_refl]
  · by_cases h2 : vs.all Value.isNull = true
    · simp [coerceColumn, h1, h2, typeFate_refl]
    · by_cases h3 : vs.any (fun v => Value.isNull v || Value.isFloatLike v) = true
      · obtain ⟨v, hv⟩ : ∃ v, vs[i]? = some v :=
          ⟨vs.get ⟨i, hi⟩, by rw [List.getElem?_eq_getElem hi]; rfl⟩
        have hmem : v ∈ vs := List.get?_mem (by rw [List.get?_eq_getElem?, hv])
        have hvstr : v.isStr = false := by
          by_contra hc
          exact h1 (List.any_eq_true.mpr ⟨v, hmem, by simpa using hc⟩)
        have hgd : vs.getD i Value.null = v := by
          rw [List.getD_eq_getElem?_getD, hv, Option.getD_some]
        have hmapped : (vs.map toFloat64).getD i Value.null = toFloat64 v := by
          rw [List.getD_eq_getElem?_getD, List.getElem?_map, hv,
            Option.map_some', Option.getD_some]
        simp only [coerceColumn, if_neg h1, if_neg h2, if_pos h3]
        rw [hgd, hmapped]
        exact toFloat64_fate hvstr
      · simp [coerceColumn, h1, h2, h3, typeFate_refl]

lemma emit_fate {t : List Record} {i j : Nat}
    (hi : i < t.length) (hj : j < (columns t).length) :
    typeFate (recVal t i j) (emitCell t i j) := by
  rw [emitCell_eq hi hj]
  unfold recVal
  exact coerce_fate (by simpa [colVals_length] using hi)

/-! ### The claims -/

/-- Claim C1: for the refrigerant-quantity field, a text cell has one
trailing GM suffix stripped and the rest parsed as an integer, so
1200GM gives 1200, the bare 1200 gives 1200 (suffix optional), an
already numeric 1200 passes through unchanged, the wrong suffix
1200KG fails with MalformedQuantity, and the suffix check is exact and
case-sensitive (lower case gm also fails). -/
theorem c1_quantity_rule :
    extractField "Refrigerant Qty (g)" (Value.str "1200GM")
        = some (Value.int 1200) ∧
    extractField "Refrigerant Qty (g)" (Value.str "1200")
        = some (Value.int 1200) ∧
    extractField "Refrigerant Qty (g)" (Value.int 1200)
        = some (Value.int 1200) ∧
    extractField "Refrigerant Qty (g)" (Value.float 1200)
        = some (Value.float 1200) ∧
    extractField "Refrigerant Qty (g)" (Value.str "1200KG")
        = Option.none ∧
    extractField "Refrigerant Qty (g)" (Value.str "1200gm")
        = Option.none := by
  decide

/-- Claim C2 counterexample: on the two-sheet workbook whose first
sheet holds the integer 5 in the EEV cell and whose second sheet is
blank, extraction yields an empty EEV value for sheet two, yet the
emitted output cell holds NaN (and the numeric 5 of sheet one is
emitted as the float 5): between extraction and emission pandas
coerces the mixed column, so empty does not stay empty. -/
theorem c2_counterexample :
    (consolidate [wsEEVnum, wsNull]).isSome = true ∧
    recVal (theTable [wsEEVnum, wsNull]) 1 1 = Value.null ∧
    emitCell (theTable [wsEEVnum, wsNull]) 1 1 = Value.nan ∧
    Value.nan ≠ Value.null ∧
    recVal (theTable [wsEEVnum, wsNull]) 0 1 = Value.int 5 ∧
    emitCell (theTable [wsEEVnum, wsNull]) 0 1 = Value.float 5 ∧
    Value.float 5 ≠ Value.int 5 := by
  decide

/-- Claim C2 amended: every emitted data cell preserves text exactly
and keeps numbers numeric (an integer survives as the same integer or
widens to the equal float), but an empty extracted value survives
empty only up to the pandas column coercion, which may turn it into
NaN when its column mixes numbers and blanks. -/
theorem c2_amended_fate (t : List Record) (i j : Nat)
    (hi : i < t.length) (hj : j < (columns t).length) :
    typeFate (recVal t i j) (emitCell t i j) :=
  emit_fate hi hj

/-- Witness for the amended Claim C2 at the concrete two-sheet
workbook of the counterexample. -/
theorem c2_amended_fate_witness :
    (1 < (theTable [wsEEVnum, wsNull]).length ∧
     1 < (columns (theTable [wsEEVnum, wsNull])).length) ∧
    typeFate (recVal (theTable [wsEEVnum, wsNull]) 1 1)
      (emitCell (theTable [wsEEVnum, wsNull]) 1 1) :=
  ⟨⟨by decide, by decide⟩,
    c2_amended_fate (theTable [wsEEVnum, wsNull]) 1 1 (by decide) (by decide)⟩

/-- Claim C3 counterexample: on the two-sheet workbook whose first
sheet holds 800 in the IDU RPM cell and whose second sheet is blank,
the run raises no error, but the output cell for the blank IDU RPM of
sheet two holds NaN rather than the empty value the claim requires. -/
theorem c3_counterexample :
    (consolidate [wsIDUnum, wsNull]).isSome = true ∧
    recVal (theTable [wsIDUnum, wsNull]) 1 4 = Value.null ∧
    emitCell (theTable [wsIDUnum, wsNull]) 1 4 = Value.nan ∧
    Value.nan ≠ Value.null := by
  decide

/-- Claim C3 amended: a missing or blank mapped cell never raises an
error at extraction and is never replaced by zero; its output cell is
empty unless the pandas column coercion turns it into NaN because the
column also carries numbers. -/
theorem c3_amended_blank (t : List Record) (i j : Nat)
    (hi : i < t.length) (hj : j < (columns t).length)
    (hnull : recVal t i j = Value.null) :
    (∀ header : String, extractField header Value.null = some Value.null) ∧
    (emitCell t i j = Value.null ∨ emitCell t i j = Value.nan) ∧
    emitCell t i j ≠ Value.int 0 ∧ emitCell t i j ≠ Value.float 0 := by
  refine ⟨?_, ?_⟩
  · intro header
    unfold extractField
    split <;> rfl
  · have hf := emit_fate hi hj
    rw [hnull] at hf
    simp only [typeFate] at hf
    rcases hf with h | h <;> simp [h]

/-- Witness for the amended Claim C3 at the concrete two-sheet
workbook of its counterexample. -/
theorem c3_amended_blank_witness :
    (1 < (theTable [wsIDUnum, wsNull]).length ∧
     4 < (columns (theTable [wsIDUnum, wsNull])).length ∧
     recVal (theTable [wsIDUnum, wsNull]) 1 4 = Value.null) ∧
    ((∀ header : String,
        extractField header Value.null = some Value.null) ∧
     (emitCell (theTable [wsIDUnum, wsNull]) 1 4 = Value.null ∨
      emitCell (theTable [wsIDUnum, wsNull]) 1 4 = Value.nan) ∧
     emitCell (theTable [wsIDUnum, wsNull]) 1 4 ≠ Value.int 0 ∧
     emitCell (theTable [wsIDUnum, wsNull]) 1 4 ≠ Value.float 0) :=
  ⟨⟨by decide, by decide, by decide⟩,
    c3_amended_blank (theTable [wsIDUnum, wsNull]) 1 4
      (by decide) (by decide) (by decide)⟩

/-- Claim C4: for a valid input workbook (extraction succeeds and, as
for any loadable workbook, at least one worksheet exists), the result
table has one row per worksheet and one column per field-map entry,
and the emitted sheet has one header row plus one data row per
worksheet. -/
theorem c4_shape (wss : List Worksheet)
    (hok : (consolidate wss).isSome = true) (hne : wss ≠ []) :
    (theTable wss).length = wss.length ∧
    (columns (theTable wss)).length = cellMap.length ∧
    (∀ row ∈ dfRows (theTable wss), row.length = cellMap.length) ∧
    (emit (theTable wss)).length = wss.length + 1 := by
  obtain ⟨t, ht⟩ := Option.isSome_iff_exists.mp hok
  have htab : theTable wss = t := by simp [theTable, ht]
  have hlen : t.length = wss.length := consolidate_length ht
  have hcols : (columns t).length = cellMap.length := by
    cases t with
    | nil =>
      exfalso
      exact hne (List.length_eq_zero.mp hlen.symm)
    | cons r t2 =>
      have hk := consolidate_keys ht r (List.mem_cons_self r t2)
      have hk2 := congrArg List.length hk
      simpa [columns] using hk2
  refine htab ▸ ⟨hlen, hcols, ?_, ?_⟩
  · intro row hrow
    rw [dfRows_mem_length hrow, hcols]
  · simp [emit, dfRows_length, hlen, Nat.add_comm]

/-- Witness for Claim C4 on a concrete one-sheet workbook. -/
theorem c4_shape_witness :
    ((consolidate [wsNull]).isSome = true ∧ [wsNull] ≠ []) ∧
    ((theTable [wsNull]).length = [wsNull].length ∧
     (columns (theTable [wsNull])).length = cellMap.length ∧
     (∀ row ∈ dfRows (theTable [wsNull]), row.length = cellMap.length) ∧
     (emit (theTable [wsNull])).length = [wsNull].length + 1) :=
  ⟨⟨by decide, List.cons_ne_nil wsNull []⟩,
    c4_shape [wsNull] (by decide) (List.cons_ne_nil wsNull [])⟩

/-- Claim C5: the output header row carries the field labels in the
exact field-map order, every record lists its fields in that same
order (so every data row follows that column order), and the extracted
rows depend only on the values at the mapped coordinates, never on how
the worksheet cells were laid down. -/
theorem c5_order (wss : List Worksheet)
    (hok : (consolidate wss).isSome = true) (hne : wss ≠ []) :
    (emit (theTable wss)).getD 0 [] = (cellMap.map Prod.fst).map Value.str ∧
    (∀ r ∈ theTable wss, r.map Prod.fst = cellMap.map Prod.fst) ∧
    (∀ ws1 ws2 : Worksheet, AgreeOnMapped ws1 ws2 →
       extract ws1 = extract ws2) := by
  obtain ⟨t, ht⟩ := Option.isSome_iff_exists.mp hok
  have htab : theTable wss = t := by simp [theTable, ht]
  have hkeys := consolidate_keys ht
  have hcols : columns t = cellMap.map Prod.fst := by
    cases t with
    | nil =>
      exfalso
      exact hne (List.length_eq_zero.mp (consolidate_length ht).symm)
    | cons r t2 =>
      simpa [columns] using hkeys r (List.mem_cons_self r t2)
  refine htab ▸ ⟨?_, hkeys, fun ws1 ws2 h => extract_congr h⟩
  simp [emit, hcols]

/-- Witness for Claim C5 on a concrete one-sheet workbook. -/
theorem c5_order_witness :
    ((consolidate [wsNull]).isSome = true ∧ [wsNull] ≠ []) ∧
    ((emit (theTable [wsNull])).getD 0 []
        = (cellMap.map Prod.fst).map Value.str ∧
     (∀ r ∈ theTable [wsNull], r.map Prod.fst = cellMap.map Prod.fst) ∧
     (∀ ws1 ws2 : Worksheet, AgreeOnMapped ws1 ws2 →
        extract ws1 = extract ws2)) :=
  ⟨⟨by decide, List.cons_ne_nil wsNull []⟩,
    c5_order [wsNull] (by decide) (List.cons_ne_nil wsNull [])⟩

/-- Claim C6 counterexample: with zero worksheets the record list is
empty, pandas derives no columns from it, and the emitted sheet gets
no cells at all, so its first row is empty instead of carrying the 34
field labels the claim promises. -/
theorem c6_counterexample :
    consolidate ([] : List Worksheet) = some [] ∧
    columns (theTable ([] : List Worksheet)) = [] ∧
    (emit (theTable ([] : List Worksheet))).getD 0 []
      ≠ (cellMap.map Prod.fst).map Value.str := by
  decide

/-- Claim C6 amended: a workbook with zero worksheets yields an empty
result table whose column schema is also empty (pandas takes the
schema from the records, so no field labels survive), and the emitted
sheet receives no header labels and no data rows at all. -/
theorem c6_amended_empty_run :
    consolidate ([] : List Worksheet) = some [] ∧
    columns (theTable ([] : List Worksheet)) = [] ∧
    dfRows (theTable ([] : List Worksheet)) = [] ∧
    emit (theTable ([] : List Worksheet)) = [[]] := by
  decide

/-- Claim C7: any failure inside the pipeline aborts the whole run at
the single top-level boundary, which shows exactly one message plus
the generic hint and delivers neither preview nor download, while a
successful run delivers the full preview and output. -/
theorem c7_error_boundary :
    (∀ (wss : List Worksheet) (ws : Worksheet), ws ∈ wss →
        extract ws = Option.none →
        runApp wss = AppDisplay.failure errMessage remediationHint) ∧
    (∀ wss : List Worksheet, (consolidate wss).isSome = true →
        runApp wss = AppDisplay.success ((dfRows (theTable wss)).take 5)
          (emit (theTable wss))) := by
  constructor
  · intro wss ws hmem hfail
    unfold runApp
    rw [consolidate_of_mem_none hmem hfail]
    rfl
  · intro wss hok
    obtain ⟨t, ht⟩ := Option.isSome_iff_exists.mp hok
    unfold runApp
    rw [ht]
    simp [display, theTable, ht]

/-- Witness for Claim C7 on a one-sheet workbook whose
refrigerant-quantity cell holds the malformed text 1200KG. -/
theorem c7_error_boundary_witness :
    (wsBadQty ∈ [wsBadQty] ∧ extract wsBadQty = Option.none) ∧
    runApp [wsBadQty] = AppDisplay.failure errMessage remediationHint :=
  ⟨⟨List.mem_cons_self wsBadQty [], by decide⟩,
    c7_error_boundary.1 [wsBadQty] wsBadQty
      (List.mem_cons_self wsBadQty []) (by decide)⟩

/-- Claim C8: the pipeline reads only the mapped coordinates, so two
workbooks of equal sheet count agreeing on every mapped cell of every
sheet produce identical records and identical app output; unmapped
cells never matter. -/
theorem c8_unmapped_ignored (wss1 wss2 : List Worksheet)
    (h : List.Forall₂ AgreeOnMapped wss1 wss2) :
    consolidate wss1 = consolidate wss2 ∧ runApp wss1 = runApp wss2 := by
  have hc := consolidate_congr h
  refine ⟨hc, ?_⟩
  unfold runApp
  rw [hc]

/-- Witness for Claim C8: a workbook whose only content is text in the
unmapped cell (1, 1) behaves exactly like the blank workbook. -/
theorem c8_unmapped_ignored_witness :
    List.Forall₂ AgreeOnMapped [wsJunk] [wsNull] ∧
    (consolidate [wsJunk] = consolidate [wsNull] ∧
     runApp [wsJunk] = runApp [wsNull]) :=
  ⟨List.Forall₂.cons (by decide) List.Forall₂.nil,
    c8_unmapped_ignored [wsJunk] [wsNull]
      (List.Forall₂.cons (by decide) List.Forall₂.nil)⟩

/-- Claim C9: the accepted quantity texts are strictly broader than a
bare integer with an optional GM suffix, because the Python int
constructor also accepts surrounding whitespace, an explicit sign, and
underscore digit separators after the single GM suffix is removed. -/
theorem c9_lenient_parse :
    extractField "Refrigerant Qty (g)" (Value.str " 1200GM")
        = some (Value.int 1200) ∧
    extractField "Refrigerant Qty (g)" (Value.str "+1200")
        = some (Value.int 1200) ∧
    extractField "Refrigerant Qty (g)" (Value.str "1_200GM")
        = some (Value.int 1200) := by
  decide

/-- Claim C10: the progress fraction divides by the worksheet count
only inside the loop body, which never runs for an empty workbook, so
no attempted progress division ever has a zero denominator. -/
theorem c10_progress_safe :
    progressUpdates ([] : List Worksheet) = [] ∧
    ∀ (wss : List Worksheet), ∀ p ∈ progressUpdates wss,
      p.isSome = true := by
  refine ⟨rfl, ?_⟩
  intro wss p hp
  simp only [progressUpdates, List.mem_map, List.mem_range] at hp
  obtain ⟨i, hi, rfl⟩ := hp
  have hz : wss.length ≠ 0 := by omega
  simp [pyDiv, hz]

/-- Witness for Claim C10 on a concrete one-sheet workbook. -/
theorem c10_progress_safe_witness :
    some ((1 : Rat)) ∈ progressUpdates [wsNull] ∧
    (some ((1 : Rat))).isSome = true :=
  ⟨by decide, c10_progress_safe.2 [wsNull] (some ((1 : Rat))) (by decide)⟩

end MCHX
